import Mathlib

/-!
Shallow embedding of the utah dataframe core (src/dataframe.rs) and proofs
about its public operations: construction, label assignment, axis iteration,
aggregate/concat/join adapter construction.

Cell values and labels are opaque to every operation embedded here (the code
only clones, collects and compares lengths), so the embedding is generic in
the cell type and in the label type; concrete witnesses instantiate them at
Int and String.
-/

namespace Utah

/-- The axis discriminator UtahAxis from util::types: Row or Column. -/
inductive UtahAxis : Type
  | Row : UtahAxis
  | Column : UtahAxis
deriving DecidableEq, Repr

/-- The orthogonal axis of an axis. -/
def UtahAxis.other : UtahAxis → UtahAxis
  | .Row => .Column
  | .Column => .Row

/-- The ndarray 2-D matrix collaborator, row-major: stored shape plus the
list of rows.  ndarray guarantees rectangularity by construction; here that
is the separate predicate Matrix.Wellformed, assumed where a claim needs it. -/
structure Matrix (α : Type) : Type where
  nrows : Nat
  ncols : Nat
  rows : List (List α)
deriving DecidableEq, Repr

/-- Rectangularity: the stored shape describes the stored rows. -/
def Matrix.Wellformed {α : Type} (m : Matrix α) : Prop :=
  m.rows.length = m.nrows ∧ ∀ r ∈ m.rows, r.length = m.ncols

instance {α : Type} (m : Matrix α) : Decidable m.Wellformed := by
  unfold Matrix.Wellformed
  infer_instance

/-- Matrix::shape as the pair (rows, cols) of the stored dimensions. -/
def Matrix.shape {α : Type} (m : Matrix α) : Nat × Nat :=
  (m.nrows, m.ncols)

/-- The j-th column of the matrix (total; on a wellformed matrix and j < ncols
this is exactly the column view). -/
def Matrix.col {α : Type} (m : Matrix α) (j : Nat) : List α :=
  m.rows.filterMap (fun r => r.get? j)

/-- ndarray axis_iter: the sequence of axis views; Axis(0) yields the rows,
Axis(1) yields the columns. -/
def Matrix.axisIter {α : Type} (m : Matrix α) : UtahAxis → List (List α)
  | .Row => m.rows
  | .Column => (List.range m.ncols).map m.col

/-- The number of axis views the stored shape promises for an axis. -/
def Matrix.axisLen {α : Type} (m : Matrix α) : UtahAxis → Nat
  | .Row => m.nrows
  | .Column => m.ncols

/-- ndarray mapv: elementwise map, preserving the shape. -/
def Matrix.mapv {α β : Type} (f : α → β) (m : Matrix α) : Matrix β :=
  ⟨m.nrows, m.ncols, m.rows.map (List.map f)⟩

/-- A read-only dataframe (struct DataFrame<T, S>): column labels, data
matrix, index labels.  All three fields are public in the source. -/
structure DataFrame (α σ : Type) : Type where
  columns : List σ
  data : Matrix α
  index : List σ
deriving DecidableEq, Repr

/-- The label vector a dataframe walks for a given axis (index for Row,
columns for Column). -/
def DataFrame.axisLabels {α σ : Type} (df : DataFrame α σ) : UtahAxis → List σ
  | .Row => df.index
  | .Column => df.columns

/-- The shape invariant of the spec: data.shape() == (len(index), len(columns)). -/
def ShapeInvariant {α σ : Type} (df : DataFrame α σ) : Prop :=
  df.data.shape = (df.index.length, df.columns.length)

instance {α σ : Type} (df : DataFrame α σ) : Decidable (ShapeInvariant df) := by
  unfold ShapeInvariant
  infer_instance

/-- The two error kinds raised by the core (util::error::ErrorKind variants
used by dataframe.rs); each carries the stringified expected and given
lengths, as in the source. -/
inductive ErrorKind : Type
  | ColumnShapeMismatch : String → String → ErrorKind
  | IndexShapeMismatch : String → String → ErrorKind
deriving DecidableEq, Repr

instance {ε α : Type} [DecidableEq ε] [DecidableEq α] : DecidableEq (Except ε α) :=
  fun a b =>
  match a, b with
  | .ok x, .ok y =>
    if h : x = y then .isTrue (by rw [h])
    else .isFalse (by intro hc; cases hc; exact h rfl)
  | .ok _, .error _ => .isFalse (by intro hc; cases hc)
  | .error _, .ok _ => .isFalse (by intro hc; cases hc)
  | .error x, .error y =>
    if h : x = y then .isTrue (by rw [h])
    else .isFalse (by intro hc; cases hc; exact h rfl)

/-- The pieces of the Num trait that DataFrame::new uses on cell values:
the From<U> coercion, is_empty, and the empty sentinel. -/
structure NumModel (υ α : Type) : Type where
  ofU : υ → α
  isEmpty : α → Bool
  empty : α

namespace Constructor

/-- DataFrame::new: coerce the cells, normalize empty cells to the sentinel,
and default both label vectors to the stringified ranges
0..shape[1] and 0..shape[0].  The S: From<String> coercion on labels is the
parameter os. -/
def new {υ α σ : Type} (nm : NumModel υ α) (os : String → σ) (data : Matrix υ) :
    DataFrame α σ :=
  let d1 : Matrix α := data.mapv nm.ofU
  let d2 : Matrix α := d1.mapv (fun x => if nm.isEmpty x then nm.empty else x)
  { data := d2
  , columns := (List.range d2.ncols).map (fun x => os (toString x))
  , index := (List.range d2.nrows).map (fun x => os (toString x)) }

/-- Constructor::columns: replace the column labels, after checking the label
count against the matrix column count. -/
def columns {υ α σ : Type} (df : DataFrame α σ) (f : υ → σ) (cols : List υ) :
    Except ErrorKind (DataFrame α σ) :=
  let data_shape := df.data.shape.2
  let column_shape := cols.length
  if column_shape ≠ data_shape then
    Except.error (ErrorKind.ColumnShapeMismatch (toString data_shape) (toString column_shape))
  else
    Except.ok { df with columns := cols.map f }

/-- Constructor::index: replace the index labels, after checking the label
count against the matrix row count. -/
def index {υ α σ : Type} (df : DataFrame α σ) (f : υ → σ) (idx : List υ) :
    Except ErrorKind (DataFrame α σ) :=
  let data_shape := df.data.shape.1
  let index_shape := idx.length
  if index_shape ≠ data_shape then
    Except.error (ErrorKind.IndexShapeMismatch (toString data_shape) (toString index_shape))
  else
    Except.ok { df with index := idx.map f }

end Constructor

/-- Concrete value model for witnesses: integer cells, no empty cells. -/
def nmInt : NumModel Int Int :=
  { ofU := fun x => x, isEmpty := fun _ => false, empty := 0 }

/-- Concrete 2x2 matrix [[2,7],[3,4]] for witnesses. -/
def mat22 : Matrix Int :=
  ⟨2, 2, [[2, 7], [3, 4]]⟩

/-- Concrete dataframe built by the constructor from mat22. -/
def df22 : DataFrame Int String :=
  Constructor.new nmInt (fun s => s) mat22

/-- Concrete result of relabelling the columns of df22. -/
def df22ab : DataFrame Int String :=
  { df22 with columns := ["a", "b"] }

/-- Concrete result of relabelling the index of df22. -/
def df22rs : DataFrame Int String :=
  { df22 with index := ["r", "s"] }

/-- C1: every dataframe produced by a successful public operation satisfies
the shape invariant: DataFrame::new establishes it, and .columns(...) /
.index(...) preserve it whenever they return Ok. -/
theorem shape_invariant_public_ops {υ υ₁ α σ : Type}
    (nm : NumModel υ α) (os : String → σ) (m : Matrix υ)
    (df df₁ df₂ : DataFrame α σ) (f g : υ₁ → σ) (s t : List υ₁) :
    ShapeInvariant (Constructor.new nm os m)
    ∧ (ShapeInvariant df → Constructor.columns df f s = Except.ok df₁ →
        ShapeInvariant df₁)
    ∧ (ShapeInvariant df → Constructor.index df g t = Except.ok df₂ →
        ShapeInvariant df₂) := by
  refine ⟨?_, ?_, ?_⟩
  · simp [ShapeInvariant, Constructor.new, Matrix.mapv, Matrix.shape]
  · intro hdf hok
    unfold Constructor.columns at hok
    by_cases h : s.length = df.data.shape.2
    · simp [h] at hok
      subst hok
      unfold ShapeInvariant at hdf ⊢
      simp [Matrix.shape] at hdf ⊢
      unfold Matrix.shape at h
      omega
    · simp [h] at hok
  · intro hdf hok
    unfold Constructor.index at hok
    by_cases h : t.length = df.data.shape.1
    · simp [h] at hok
      subst hok
      unfold ShapeInvariant at hdf ⊢
      simp [Matrix.shape] at hdf ⊢
      unfold Matrix.shape at h
      omega
    · simp [h] at hok

/-- Witness for C1 at concrete inputs: the constructed 2x2 frame satisfies
the invariant, and so do the frames returned by successful columns/index
relabellings. -/
theorem shape_invariant_public_ops_witness :
    ShapeInvariant df22 ∧ ShapeInvariant df22ab ∧ ShapeInvariant df22rs := by
  refine ⟨?_, ?_, ?_⟩
  · exact (shape_invariant_public_ops nmInt (fun s => s) mat22 df22 df22 df22
      (fun x : String => x) (fun x : String => x) ["a"] ["r"]).1
  · exact (shape_invariant_public_ops nmInt (fun s => s) mat22 df22 df22ab df22
      (fun x : String => x) (fun x : String => x) ["a", "b"] ["r"]).2.1
      (by decide) (by decide)
  · exact (shape_invariant_public_ops nmInt (fun s => s) mat22 df22 df22 df22rs
      (fun x : String => x) (fun x : String => x) ["a"] ["r", "s"]).2.2
      (by decide) (by decide)

/-- C2: .columns(s) fails with ColumnShapeMismatch exactly when len(s)
differs from the matrix column count, .index(s) fails with
IndexShapeMismatch exactly when len(s) differs from the matrix row count,
and these are the only errors either can return. -/
theorem label_mismatch_error_iff {υ α σ : Type}
    (df : DataFrame α σ) (f g : υ → σ) (s t : List υ) :
    (Constructor.columns df f s =
        Except.error (ErrorKind.ColumnShapeMismatch
          (toString df.data.shape.2) (toString s.length))
      ↔ s.length ≠ df.data.shape.2)
    ∧ (Constructor.index df g t =
        Except.error (ErrorKind.IndexShapeMismatch
          (toString df.data.shape.1) (toString t.length))
      ↔ t.length ≠ df.data.shape.1)
    ∧ (∀ e, Constructor.columns df f s = Except.error e →
        e = ErrorKind.ColumnShapeMismatch
          (toString df.data.shape.2) (toString s.length))
    ∧ (∀ e, Constructor.index df g t = Except.error e →
        e = ErrorKind.IndexShapeMismatch
          (toString df.data.shape.1) (toString t.length)) := by
  refine ⟨?_, ?_, ?_, ?_⟩
  · by_cases h : s.length = df.data.shape.2 <;>
      simp [Constructor.columns, h]
  · by_cases h : t.length = df.data.shape.1 <;>
      simp [Constructor.index, h]
  · intro e he
    by_cases h : s.length = df.data.shape.2 <;>
      simp [Constructor.columns, h] at he
    exact he.symm
  · intro e he
    by_cases h : t.length = df.data.shape.1 <;>
      simp [Constructor.index, h] at he
    exact he.symm

/-- Witness for C2: a one-label relabelling of the 2-column frame df22 fails
with exactly the ColumnShapeMismatch / IndexShapeMismatch errors. -/
theorem label_mismatch_error_iff_witness :
    Constructor.columns df22 (fun x : String => x) ["a"] =
      Except.error (ErrorKind.ColumnShapeMismatch
        (toString df22.data.shape.2) (toString (["a"] : List String).length))
    ∧ Constructor.index df22 (fun x : String => x) ["r"] =
      Except.error (ErrorKind.IndexShapeMismatch
        (toString df22.data.shape.1) (toString (["r"] : List String).length)) := by
  refine ⟨?_, ?_⟩
  · exact (label_mismatch_error_iff df22 (fun x : String => x)
      (fun x : String => x) ["a"] ["r"]).1.mpr (by decide)
  · exact (label_mismatch_error_iff df22 (fun x : String => x)
      (fun x : String => x) ["a"] ["r"]).2.1.mpr (by decide)

/-- C8: DataFrame::new defaults the column labels to the stringified range
0..cols-1 and the index labels to the stringified range 0..rows-1. -/
theorem new_default_labels {υ α σ : Type}
    (nm : NumModel υ α) (os : String → σ) (m : Matrix υ) :
    (Constructor.new nm os m).columns =
      (List.range m.ncols).map (fun i => os (toString i))
    ∧ (Constructor.new nm os m).index =
      (List.range m.nrows).map (fun i => os (toString i)) := by
  exact ⟨rfl, rfl⟩

/-- C9: label assignment is atomic and frame-preserving: a successful
.columns(c) changes only the columns field (to the coerced c), a successful
.index(i) changes only the index field, and on a length mismatch neither
call produces any frame at all. -/
theorem label_assignment_frame_effect {υ α σ : Type}
    (df df₁ df₂ : DataFrame α σ) (f g : υ → σ) (c i : List υ) :
    (Constructor.columns df f c = Except.ok df₁ →
      df₁.data = df.data ∧ df₁.index = df.index ∧ df₁.columns = c.map f)
    ∧ (Constructor.index df g i = Except.ok df₂ →
      df₂.data = df.data ∧ df₂.columns = df.columns ∧ df₂.index = i.map g)
    ∧ (c.length ≠ df.data.shape.2 → ∀ d, Constructor.columns df f c ≠ Except.ok d)
    ∧ (i.length ≠ df.data.shape.1 → ∀ d, Constructor.index df g i ≠ Except.ok d) := by
  refine ⟨?_, ?_, ?_, ?_⟩
  · intro hok
    by_cases h : c.length = df.data.shape.2 <;>
      simp [Constructor.columns, h] at hok
    subst hok
    exact ⟨rfl, rfl, rfl⟩
  · intro hok
    by_cases h : i.length = df.data.shape.1 <;>
      simp [Constructor.index, h] at hok
    subst hok
    exact ⟨rfl, rfl, rfl⟩
  · intro h d
    simp [Constructor.columns, h]
  · intro h d
    simp [Constructor.index, h]

/-- Witness for C9 at concrete inputs: relabelling df22 succeeds and changes
only the intended field, and a mismatched relabelling returns no frame. -/
theorem label_assignment_frame_effect_witness :
    (df22ab.data = df22.data ∧ df22ab.index = df22.index ∧
      df22ab.columns = (["a", "b"] : List String).map (fun x => x))
    ∧ (∀ d, Constructor.columns df22 (fun x : String => x) ["a"] ≠ Except.ok d) := by
  refine ⟨?_, ?_⟩
  · exact (label_assignment_frame_effect df22 df22ab df22
      (fun x : String => x) (fun x : String => x) ["a", "b"] ["r"]).1 (by decide)
  · exact (label_assignment_frame_effect df22 df22ab df22
      (fun x : String => x) (fun x : String => x) ["a"] ["r"]).2.2.1 (by decide)

/-- struct DataFrameIterator<T, S>: the remaining label cursor, the remaining
axis-view cursor, the other-axis labels, and the axis discriminator. -/
structure DataFrameIterator (α σ : Type) : Type where
  names : List σ
  data : List (List α)
  other : List σ
  axis : UtahAxis
deriving DecidableEq, Repr

/-- struct MutableDataFrameIterator<T, S>: same fields as the read-only
iterator; in the embedding the read-write views are the same slices. -/
structure MutableDataFrameIterator (α σ : Type) : Type where
  names : List σ
  data : List (List α)
  other : List σ
  axis : UtahAxis
deriving DecidableEq, Repr

/-- Iterator::next for DataFrameIterator: advance the label cursor; when it
yields a label, advance the view cursor; emit the pair only when both yield,
None otherwise (the label cursor stays advanced either way). -/
def DataFrameIterator.next {α σ : Type} :
    DataFrameIterator α σ → Option (σ × List α) × DataFrameIterator α σ
  | ⟨[], ds, o, a⟩ => (none, ⟨[], ds, o, a⟩)
  | ⟨_ :: ns, [], o, a⟩ => (none, ⟨ns, [], o, a⟩)
  | ⟨n :: ns, d :: ds, o, a⟩ => (some (n, d), ⟨ns, ds, o, a⟩)

/-- Iterator::next for MutableDataFrameIterator, same protocol. -/
def MutableDataFrameIterator.next {α σ : Type} :
    MutableDataFrameIterator α σ → Option (σ × List α) × MutableDataFrameIterator α σ
  | ⟨[], ds, o, a⟩ => (none, ⟨[], ds, o, a⟩)
  | ⟨_ :: ns, [], o, a⟩ => (none, ⟨ns, [], o, a⟩)
  | ⟨n :: ns, d :: ds, o, a⟩ => (some (n, d), ⟨ns, ds, o, a⟩)

/-- Pulling from the iterator until the first None: the list of items
produced and the state the iterator is left in. -/
def DataFrameIterator.drive {α σ : Type} :
    DataFrameIterator α σ → List (σ × List α) × DataFrameIterator α σ
  | ⟨[], ds, o, a⟩ => ([], ⟨[], ds, o, a⟩)
  | ⟨_ :: ns, [], o, a⟩ => ([], ⟨ns, [], o, a⟩)
  | ⟨n :: ns, d :: ds, o, a⟩ =>
    let r := DataFrameIterator.drive ⟨ns, ds, o, a⟩
    ((n, d) :: r.1, r.2)

/-- Pulling from the mutable iterator until the first None. -/
def MutableDataFrameIterator.drive {α σ : Type} :
    MutableDataFrameIterator α σ → List (σ × List α) × MutableDataFrameIterator α σ
  | ⟨[], ds, o, a⟩ => ([], ⟨[], ds, o, a⟩)
  | ⟨_ :: ns, [], o, a⟩ => ([], ⟨ns, [], o, a⟩)
  | ⟨n :: ns, d :: ds, o, a⟩ =>
    let r := MutableDataFrameIterator.drive ⟨ns, ds, o, a⟩
    ((n, d) :: r.1, r.2)

/-- The state after k further calls to next. -/
def DataFrameIterator.stateAfter {α σ : Type} (it : DataFrameIterator α σ) :
    Nat → DataFrameIterator α σ
  | 0 => it
  | k + 1 => (it.next.2).stateAfter k

/-- The state after k further calls to next, mutable variant. -/
def MutableDataFrameIterator.stateAfter {α σ : Type} (it : MutableDataFrameIterator α σ) :
    Nat → MutableDataFrameIterator α σ
  | 0 => it
  | k + 1 => (it.next.2).stateAfter k

theorem DataFrameIterator.drive_protocol {α σ : Type} (it : DataFrameIterator α σ) :
    it.drive = match it.next with
      | (none, it₁) => ([], it₁)
      | (some p, it₁) => (p :: it₁.drive.1, it₁.drive.2) := by
  obtain ⟨ns, ds, o, a⟩ := it
  cases ns with
  | nil => simp [DataFrameIterator.drive, DataFrameIterator.next]
  | cons n ns =>
    cases ds with
    | nil => simp [DataFrameIterator.drive, DataFrameIterator.next]
    | cons d ds => simp [DataFrameIterator.drive, DataFrameIterator.next]

theorem DataFrameIterator.drive_fst {α σ : Type} (ns : List σ) (ds : List (List α))
    (o : List σ) (a : UtahAxis) :
    (DataFrameIterator.drive ⟨ns, ds, o, a⟩).1 = ns.zip ds := by
  induction ns generalizing ds with
  | nil => simp [DataFrameIterator.drive]
  | cons n ns ih =>
    cases ds with
    | nil => simp [DataFrameIterator.drive]
    | cons d ds => simp [DataFrameIterator.drive, ih]

theorem MutableDataFrameIterator.driveMut_fst {α σ : Type} (ns : List σ)
    (ds : List (List α)) (o : List σ) (a : UtahAxis) :
    (MutableDataFrameIterator.drive ⟨ns, ds, o, a⟩).1 = ns.zip ds := by
  induction ns generalizing ds with
  | nil => simp [MutableDataFrameIterator.drive]
  | cons n ns ih =>
    cases ds with
    | nil => simp [MutableDataFrameIterator.drive]
    | cons d ds => simp [MutableDataFrameIterator.drive, ih]

theorem DataFrameIterator.drive_other {α σ : Type} (ns : List σ) (ds : List (List α))
    (o : List σ) (a : UtahAxis) :
    (DataFrameIterator.drive ⟨ns, ds, o, a⟩).2.other = o := by
  induction ns generalizing ds with
  | nil => simp [DataFrameIterator.drive]
  | cons n ns ih =>
    cases ds with
    | nil => simp [DataFrameIterator.drive]
    | cons d ds => simpa [DataFrameIterator.drive] using ih ds

theorem DataFrameIterator.drive_exhausted {α σ : Type} (ns : List σ)
    (ds : List (List α)) (o : List σ) (a : UtahAxis) :
    (DataFrameIterator.drive ⟨ns, ds, o, a⟩).2.names = []
    ∨ (DataFrameIterator.drive ⟨ns, ds, o, a⟩).2.data = [] := by
  induction ns generalizing ds with
  | nil => simp [DataFrameIterator.drive]
  | cons n ns ih =>
    cases ds with
    | nil => simp [DataFrameIterator.drive]
    | cons d ds => simpa [DataFrameIterator.drive] using ih ds

theorem MutableDataFrameIterator.driveMut_exhausted {α σ : Type} (ns : List σ)
    (ds : List (List α)) (o : List σ) (a : UtahAxis) :
    (MutableDataFrameIterator.drive ⟨ns, ds, o, a⟩).2.names = []
    ∨ (MutableDataFrameIterator.drive ⟨ns, ds, o, a⟩).2.data = [] := by
  induction ns generalizing ds with
  | nil => simp [MutableDataFrameIterator.drive]
  | cons n ns ih =>
    cases ds with
    | nil => simp [MutableDataFrameIterator.drive]
    | cons d ds => simpa [MutableDataFrameIterator.drive] using ih ds

theorem DataFrameIterator.next_exhausted {α σ : Type} (it : DataFrameIterator α σ)
    (h : it.names = [] ∨ it.data = []) :
    it.next.1 = none ∧ (it.next.2.names = [] ∨ it.next.2.data = []) := by
  match it with
  | ⟨[], ds, o, a⟩ => exact ⟨rfl, Or.inl rfl⟩
  | ⟨n :: ns, [], o, a⟩ => exact ⟨rfl, Or.inr rfl⟩
  | ⟨n :: ns, d :: ds, o, a⟩ => simp at h

theorem MutableDataFrameIterator.nextMut_exhausted {α σ : Type}
    (it : MutableDataFrameIterator α σ) (h : it.names = [] ∨ it.data = []) :
    it.next.1 = none ∧ (it.next.2.names = [] ∨ it.next.2.data = []) := by
  match it with
  | ⟨[], ds, o, a⟩ => exact ⟨rfl, Or.inl rfl⟩
  | ⟨n :: ns, [], o, a⟩ => exact ⟨rfl, Or.inr rfl⟩
  | ⟨n :: ns, d :: ds, o, a⟩ => simp at h

theorem DataFrameIterator.stateAfter_none {α σ : Type} (it : DataFrameIterator α σ)
    (h : it.names = [] ∨ it.data = []) (k : Nat) :
    (it.stateAfter k).next.1 = none := by
  induction k generalizing it with
  | zero => exact (DataFrameIterator.next_exhausted it h).1
  | succ k ih =>
    exact ih it.next.2 (DataFrameIterator.next_exhausted it h).2

theorem MutableDataFrameIterator.stateAfterMut_none {α σ : Type}
    (it : MutableDataFrameIterator α σ) (h : it.names = [] ∨ it.data = []) (k : Nat) :
    (it.stateAfter k).next.1 = none := by
  induction k generalizing it with
  | zero => exact (MutableDataFrameIterator.nextMut_exhausted it h).1
  | succ k ih =>
    exact ih it.next.2 (MutableDataFrameIterator.nextMut_exhausted it h).2

theorem Matrix.axisIter_length {α : Type} (m : Matrix α) (hw : m.Wellformed)
    (ax : UtahAxis) : (m.axisIter ax).length = m.axisLen ax := by
  cases ax with
  | Row => exact hw.1
  | Column => simp [Matrix.axisIter, Matrix.axisLen]

namespace Constructor

/-- Constructor::df_iter: zip the axis's labels against the axis views,
carrying the other axis's labels and the axis discriminator. -/
def df_iter {α σ : Type} (df : DataFrame α σ) : UtahAxis → DataFrameIterator α σ
  | .Row =>
    { names := df.index
    , data := df.data.axisIter .Row
    , other := df.columns
    , axis := .Row }
  | .Column =>
    { names := df.columns
    , data := df.data.axisIter .Column
    , other := df.index
    , axis := .Column }

/-- Constructor::df_iter_mut, exactly as in the source: the Column branch
sets the axis field to UtahAxis::Row (dataframe.rs line 301). -/
def df_iter_mut {α σ : Type} (df : DataFrame α σ) :
    UtahAxis → MutableDataFrameIterator α σ
  | .Row =>
    { names := df.index
    , data := df.data.axisIter .Row
    , axis := .Row
    , other := df.columns }
  | .Column =>
    { names := df.columns
    , data := df.data.axisIter .Column
    , axis := .Row
    , other := df.index }

end Constructor

/-- C6: on a wellformed frame satisfying the shape invariant, df_iter(axis)
yields exactly the n pairs zipping the selected labels with the axis views,
in index order, carries the other axis's labels unchanged, and its residual
state answers None. -/
theorem df_iter_yields_n_pairs {α σ : Type} (df : DataFrame α σ) (ax : UtahAxis)
    (hw : df.data.Wellformed) (hs : ShapeInvariant df) :
    (Constructor.df_iter df ax).drive.1 =
      (df.axisLabels ax).zip (df.data.axisIter ax)
    ∧ (Constructor.df_iter df ax).drive.1.length = (df.axisLabels ax).length
    ∧ (Constructor.df_iter df ax).other = df.axisLabels ax.other
    ∧ (Constructor.df_iter df ax).drive.2.other = df.axisLabels ax.other
    ∧ (Constructor.df_iter df ax).drive.2.next.1 = none := by
  have hinv : df.data.nrows = df.index.length ∧ df.data.ncols = df.columns.length := by
    unfold ShapeInvariant Matrix.shape at hs
    exact ⟨congrArg Prod.fst hs, congrArg Prod.snd hs⟩
  have hlen : ∀ a, (df.data.axisIter a).length = (df.axisLabels a).length := by
    intro a
    rw [Matrix.axisIter_length df.data hw a]
    cases a with
    | Row => exact hinv.1
    | Column => exact hinv.2
  cases ax with
  | Row =>
    refine ⟨DataFrameIterator.drive_fst _ _ _ _, ?_, rfl,
      DataFrameIterator.drive_other _ _ _ _, ?_⟩
    · have h1 := hlen UtahAxis.Row
      simp only [DataFrame.axisLabels] at h1 ⊢
      simp only [Constructor.df_iter]
      rw [DataFrameIterator.drive_fst, List.length_zip]
      omega
    · exact (DataFrameIterator.next_exhausted _
        (DataFrameIterator.drive_exhausted _ _ _ _)).1
  | Column =>
    refine ⟨DataFrameIterator.drive_fst _ _ _ _, ?_, rfl,
      DataFrameIterator.drive_other _ _ _ _, ?_⟩
    · have h1 := hlen UtahAxis.Column
      simp only [DataFrame.axisLabels] at h1 ⊢
      simp only [Constructor.df_iter]
      rw [DataFrameIterator.drive_fst, List.length_zip]
      omega
    · exact (DataFrameIterator.next_exhausted _
        (DataFrameIterator.drive_exhausted _ _ _ _)).1

/-- Witness for C6 at the concrete 2x2 frame, column axis: the iterator
yields the two (label, column view) pairs and then answers None. -/
theorem df_iter_yields_n_pairs_witness :
    (Constructor.df_iter df22 UtahAxis.Column).drive.1 =
      (df22.axisLabels UtahAxis.Column).zip (df22.data.axisIter UtahAxis.Column)
    ∧ (Constructor.df_iter df22 UtahAxis.Column).drive.2.next.1 = none := by
  refine ⟨?_, ?_⟩
  · exact (df_iter_yields_n_pairs df22 UtahAxis.Column (by decide) (by decide)).1
  · exact (df_iter_yields_n_pairs df22 UtahAxis.Column (by decide) (by decide)).2.2.2.2

/-- C7 (code bug): on the concrete 2x2 frame, df_iter_mut(Column) agrees
with df_iter(Column) on labels, views and carried other-axis labels, but
records the axis discriminator Row where the read-only iterator records
Column (dataframe.rs line 301). -/
theorem df_iter_mut_axis_divergence :
    (Constructor.df_iter_mut df22 UtahAxis.Column).axis = UtahAxis.Row
    ∧ (Constructor.df_iter df22 UtahAxis.Column).axis = UtahAxis.Column
    ∧ (Constructor.df_iter_mut df22 UtahAxis.Column).names =
        (Constructor.df_iter df22 UtahAxis.Column).names
    ∧ (Constructor.df_iter_mut df22 UtahAxis.Column).data =
        (Constructor.df_iter df22 UtahAxis.Column).data
    ∧ (Constructor.df_iter_mut df22 UtahAxis.Column).other =
        (Constructor.df_iter df22 UtahAxis.Column).other := by
  decide

/-- A malformed frame for C10: three index labels over a 2-row matrix (the
fields are public, so this frame is constructible). -/
def dfBad : DataFrame Int String :=
  { columns := ["a", "b"], data := mat22, index := ["r", "s", "t"] }

/-- C10: even when the label count differs from the matrix dimension, both
axis iterators yield exactly min(labels, axis slices) pairs and answer None
on every call thereafter. -/
theorem iterators_total_on_malformed {α σ : Type} (df : DataFrame α σ)
    (ax : UtahAxis) (hw : df.data.Wellformed)
    (hm : (df.axisLabels ax).length ≠ df.data.axisLen ax) :
    (Constructor.df_iter df ax).drive.1.length =
      min (df.axisLabels ax).length (df.data.axisLen ax)
    ∧ (∀ k, ((Constructor.df_iter df ax).drive.2.stateAfter k).next.1 = none)
    ∧ (Constructor.df_iter_mut df ax).drive.1.length =
      min (df.axisLabels ax).length (df.data.axisLen ax)
    ∧ (∀ k, ((Constructor.df_iter_mut df ax).drive.2.stateAfter k).next.1 = none) := by
  have hiter : (df.data.axisIter ax).length = df.data.axisLen ax :=
    Matrix.axisIter_length df.data hw ax
  cases ax with
  | Row =>
    refine ⟨?_, ?_, ?_, ?_⟩
    · simp only [DataFrame.axisLabels, Matrix.axisLen] at hiter ⊢
      simp only [Constructor.df_iter]
      rw [DataFrameIterator.drive_fst, List.length_zip]
      omega
    · intro k
      exact DataFrameIterator.stateAfter_none _
        (DataFrameIterator.drive_exhausted _ _ _ _) k
    · simp only [DataFrame.axisLabels, Matrix.axisLen] at hiter ⊢
      simp only [Constructor.df_iter_mut]
      rw [MutableDataFrameIterator.driveMut_fst, List.length_zip]
      omega
    · intro k
      exact MutableDataFrameIterator.stateAfterMut_none _
        (MutableDataFrameIterator.driveMut_exhausted _ _ _ _) k
  | Column =>
    refine ⟨?_, ?_, ?_, ?_⟩
    · simp only [DataFrame.axisLabels, Matrix.axisLen] at hiter ⊢
      simp only [Constructor.df_iter]
      rw [DataFrameIterator.drive_fst, List.length_zip]
      omega
    · intro k
      exact DataFrameIterator.stateAfter_none _
        (DataFrameIterator.drive_exhausted _ _ _ _) k
    · simp only [DataFrame.axisLabels, Matrix.axisLen] at hiter ⊢
      simp only [Constructor.df_iter_mut]
      rw [MutableDataFrameIterator.driveMut_fst, List.length_zip]
      omega
    · intro k
      exact MutableDataFrameIterator.stateAfterMut_none _
        (MutableDataFrameIterator.driveMut_exhausted _ _ _ _) k

/-- Witness for C10 at the malformed frame dfBad (3 index labels, 2 rows):
both row iterators yield exactly min(3, 2) = 2 pairs and the read-only
residual answers None on the next call. -/
theorem iterators_total_on_malformed_witness :
    (Constructor.df_iter dfBad UtahAxis.Row).drive.1.length =
      min (dfBad.axisLabels UtahAxis.Row).length (dfBad.data.axisLen UtahAxis.Row)
    ∧ (Constructor.df_iter_mut dfBad UtahAxis.Row).drive.1.length =
      min (dfBad.axisLabels UtahAxis.Row).length (dfBad.data.axisLen UtahAxis.Row)
    ∧ ((Constructor.df_iter dfBad UtahAxis.Row).drive.2.stateAfter 0).next.1 = none := by
  refine ⟨?_, ?_, ?_⟩
  · exact (iterators_total_on_malformed dfBad UtahAxis.Row (by decide) (by decide)).1
  · exact (iterators_total_on_malformed dfBad UtahAxis.Row (by decide) (by decide)).2.2.1
  · exact (iterators_total_on_malformed dfBad UtahAxis.Row (by decide) (by decide)).2.1 0

/-- Modelled from the spec: the Sum aggregate adapter (adapters::aggregate,
not under src/); the struct records the arguments dataframe.rs passes to
Sum::new — the axis iterator, the carried labels, and the axis. -/
structure SumIter (α σ : Type) : Type where
  data : DataFrameIterator α σ
  other : List σ
  axis : UtahAxis
deriving DecidableEq, Repr

/-- Modelled from the spec: the Mean aggregate adapter (adapters::aggregate,
not under src/); records the arguments of Mean::new. -/
structure MeanIter (α σ : Type) : Type where
  data : DataFrameIterator α σ
  other : List σ
  axis : UtahAxis
deriving DecidableEq, Repr

/-- Modelled from the spec: the Max aggregate adapter (adapters::aggregate,
not under src/); records the arguments of Max::new. -/
structure MaxIter (α σ : Type) : Type where
  data : DataFrameIterator α σ
  other : List σ
  axis : UtahAxis
deriving DecidableEq, Repr

/-- Modelled from the spec: the Min aggregate adapter (adapters::aggregate,
not under src/); records the arguments of Min::new. -/
structure MinIter (α σ : Type) : Type where
  data : DataFrameIterator α σ
  other : List σ
  axis : UtahAxis
deriving DecidableEq, Repr

/-- Modelled from the spec: the Stdev aggregate adapter (adapters::aggregate,
not under src/); records the arguments of Stdev::new. -/
structure StdevIter (α σ : Type) : Type where
  data : DataFrameIterator α σ
  other : List σ
  axis : UtahAxis
deriving DecidableEq, Repr

/-- Modelled from the spec: the Concat transform adapter (adapters::transform,
not under src/); records the arguments of Concat::new — the two wrapped axis
iterators, the carried orthogonal labels, and the axis. -/
structure ConcatIter (α σ : Type) : Type where
  left : DataFrameIterator α σ
  right : DataFrameIterator α σ
  other : List σ
  axis : UtahAxis
deriving DecidableEq, Repr

/-- Modelled from the spec: the InnerJoin adapter (adapters::join, not under
src/); records the arguments of InnerJoin::new — the driving iterator, the
looked-up iterator, and the two operands' column-label vectors. -/
structure InnerJoinIter (α σ : Type) : Type where
  left : DataFrameIterator α σ
  right : DataFrameIterator α σ
  left_columns : List σ
  right_columns : List σ
deriving DecidableEq, Repr

/-- Modelled from the spec: the OuterJoin adapter (adapters::join, not under
src/); records the arguments of OuterJoin::new. -/
structure OuterJoinIter (α σ : Type) : Type where
  left : DataFrameIterator α σ
  right : DataFrameIterator α σ
  left_columns : List σ
  right_columns : List σ
deriving DecidableEq, Repr

/-- Modelled from the spec: an aggregate adapter is a single-pass reducer
over its axis iterator, yielding exactly one scalar per (label, view) pair,
the reduction of the pair's view. -/
def aggregateRun {α σ : Type} (reduce : List α → α) (it : DataFrameIterator α σ) :
    List (σ × α) :=
  it.drive.1.map (fun p => (p.1, reduce p.2))

/-- Modelled from the spec: Concat interleaves the two wrapped iterators
end-to-end — all of the first operand's iterator in order, then all of the
second operand's iterator in order. -/
def ConcatIter.run {α σ : Type} (c : ConcatIter α σ) : List (σ × List α) :=
  c.left.drive.1 ++ c.right.drive.1

namespace Operations

/-- Operations::sumdf, generic default impl: the Row argument selects the
Column iterator with the column labels, the Column argument selects the Row
iterator with the index labels. -/
def sumdf {α σ : Type} (df : DataFrame α σ) : UtahAxis → SumIter α σ
  | .Row => ⟨Constructor.df_iter df .Column, df.columns, .Column⟩
  | .Column => ⟨Constructor.df_iter df .Row, df.index, .Row⟩

/-- Operations::mean, generic default impl: the Row argument selects the Row
iterator; the Column argument selects the Column iterator (and records the
axis UtahAxis::Row, as in the source). -/
def mean {α σ : Type} (df : DataFrame α σ) : UtahAxis → MeanIter α σ
  | .Row => ⟨Constructor.df_iter df .Row, df.columns, .Row⟩
  | .Column => ⟨Constructor.df_iter df .Column, df.index, .Row⟩

/-- Operations::maxdf, generic default impl. -/
def maxdf {α σ : Type} (df : DataFrame α σ) : UtahAxis → MaxIter α σ
  | .Row => ⟨Constructor.df_iter df .Row, df.columns, .Row⟩
  | .Column => ⟨Constructor.df_iter df .Column, df.index, .Row⟩

/-- Operations::min, generic default impl. -/
def min {α σ : Type} (df : DataFrame α σ) : UtahAxis → MinIter α σ
  | .Row => ⟨Constructor.df_iter df .Row, df.columns, .Row⟩
  | .Column => ⟨Constructor.df_iter df .Column, df.index, .Row⟩

/-- Operations::stdev, generic default impl. -/
def stdev {α σ : Type} (df : DataFrame α σ) : UtahAxis → StdevIter α σ
  | .Row => ⟨Constructor.df_iter df .Row, df.columns, .Row⟩
  | .Column => ⟨Constructor.df_iter df .Column, df.index, .Row⟩

/-- Operations::concat, generic default impl: the Row argument selects the
two Column iterators and the Column argument the two Row iterators, always
carrying the first operand's column labels. -/
def concat {α σ : Type} (a b : DataFrame α σ) : UtahAxis → ConcatIter α σ
  | .Row => ⟨Constructor.df_iter a .Column, Constructor.df_iter b .Column,
      a.columns, .Column⟩
  | .Column => ⟨Constructor.df_iter a .Row, Constructor.df_iter b .Row,
      a.columns, .Row⟩

/-- Operations::inner_left_join, generic default impl. -/
def inner_left_join {α σ : Type} (a b : DataFrame α σ) : InnerJoinIter α σ :=
  ⟨Constructor.df_iter a .Row, Constructor.df_iter b .Row, a.columns, b.columns⟩

/-- Operations::outer_left_join, generic default impl. -/
def outer_left_join {α σ : Type} (a b : DataFrame α σ) : OuterJoinIter α σ :=
  ⟨Constructor.df_iter a .Row, Constructor.df_iter b .Row, a.columns, b.columns⟩

/-- Operations::inner_right_join, generic default impl: swaps the operands. -/
def inner_right_join {α σ : Type} (a b : DataFrame α σ) : InnerJoinIter α σ :=
  ⟨Constructor.df_iter b .Row, Constructor.df_iter a .Row, b.columns, a.columns⟩

/-- Operations::outer_right_join, generic default impl: swaps the operands. -/
def outer_right_join {α σ : Type} (a b : DataFrame α σ) : OuterJoinIter α σ :=
  ⟨Constructor.df_iter b .Row, Constructor.df_iter a .Row, b.columns, a.columns⟩

end Operations

namespace OperationsF64String

/-- Operations::concat from the impl for DataFrame<f64, String> (the body
never touches f64 or String operations, so it is embedded generically): the
Row argument selects the two Row iterators carrying the first operand's
column labels; the Column argument selects the two Column iterators carrying
the first operand's index labels. -/
def concat {α σ : Type} (a b : DataFrame α σ) : UtahAxis → ConcatIter α σ
  | .Row => ⟨Constructor.df_iter a .Row, Constructor.df_iter b .Row,
      a.columns, .Row⟩
  | .Column => ⟨Constructor.df_iter a .Column, Constructor.df_iter b .Column,
      a.index, .Column⟩

/-- Operations::inner_left_join from the f64/String impl. -/
def inner_left_join {α σ : Type} (a b : DataFrame α σ) : InnerJoinIter α σ :=
  ⟨Constructor.df_iter a .Row, Constructor.df_iter b .Row, a.columns, b.columns⟩

/-- Operations::outer_left_join from the f64/String impl. -/
def outer_left_join {α σ : Type} (a b : DataFrame α σ) : OuterJoinIter α σ :=
  ⟨Constructor.df_iter a .Row, Constructor.df_iter b .Row, a.columns, b.columns⟩

/-- Operations::inner_right_join from the f64/String impl. -/
def inner_right_join {α σ : Type} (a b : DataFrame α σ) : InnerJoinIter α σ :=
  ⟨Constructor.df_iter b .Row, Constructor.df_iter a .Row, b.columns, a.columns⟩

/-- Operations::outer_right_join from the f64/String impl. -/
def outer_right_join {α σ : Type} (a b : DataFrame α σ) : OuterJoinIter α σ :=
  ⟨Constructor.df_iter b .Row, Constructor.df_iter a .Row, b.columns, a.columns⟩

end OperationsF64String

/-- C5: the right-join entry points equal the left-join entry points with
the operands swapped — same iterator order and same column-label vectors —
both in the generic default impl and in the f64/String impl. -/
theorem right_join_swaps_left_join {α σ : Type} (a b : DataFrame α σ) :
    Operations.inner_right_join a b = Operations.inner_left_join b a
    ∧ Operations.outer_right_join a b = Operations.outer_left_join b a
    ∧ OperationsF64String.inner_right_join a b = OperationsF64String.inner_left_join b a
    ∧ OperationsF64String.outer_right_join a b = OperationsF64String.outer_left_join b a :=
  ⟨rfl, rfl, rfl, rfl⟩

/-- Counterexample to C3 as stated: on the concrete 2x2 frame, sumdf(Row)
and mean(Row) wrap iterators over different view sequences (the columns for
sumdf, the rows for mean), so they do not reduce the same slices. -/
theorem sum_mean_axis_disagree_cex :
    (Operations.sumdf df22 UtahAxis.Row).data.data ≠
      (Operations.mean df22 UtahAxis.Row).data.data
    ∧ (Operations.sumdf df22 UtahAxis.Row).data.axis = UtahAxis.Column
    ∧ (Operations.mean df22 UtahAxis.Row).data.axis = UtahAxis.Row := by
  decide

/-- C3 as amended: mean, maxdf, min and stdev called with axis A wrap the
axis-A iterator, while sumdf called with A wraps the iterator of the
opposite axis; each aggregate yields exactly one scalar per (label, view)
pair of the iterator it wraps. -/
theorem aggregate_iterator_selection {α σ : Type} (df : DataFrame α σ)
    (ax : UtahAxis) :
    (Operations.mean df ax).data = Constructor.df_iter df ax
    ∧ (Operations.maxdf df ax).data = Constructor.df_iter df ax
    ∧ (Operations.min df ax).data = Constructor.df_iter df ax
    ∧ (Operations.stdev df ax).data = Constructor.df_iter df ax
    ∧ (Operations.sumdf df ax).data = Constructor.df_iter df ax.other
    ∧ (∀ reduce : List α → α,
        (aggregateRun reduce (Operations.mean df ax).data).length =
          (Operations.mean df ax).data.drive.1.length
        ∧ (aggregateRun reduce (Operations.sumdf df ax).data).length =
          (Operations.sumdf df ax).data.drive.1.length
        ∧ (aggregateRun reduce (Operations.mean df ax).data).map Prod.fst =
          (Operations.mean df ax).data.drive.1.map Prod.fst) := by
  cases ax <;>
    refine ⟨rfl, rfl, rfl, rfl, rfl, ?_⟩ <;>
      intro reduce <;>
        exact ⟨by simp [aggregateRun], by simp [aggregateRun],
          by simp [aggregateRun, List.map_map]⟩

/-- Counterexample to C4 as stated: on concrete frames the generic default
concat and the f64/String concat select different axis iterators for the
Row argument, and carry different label vectors for the Column argument. -/
theorem concat_generic_spec_disagree_cex :
    Operations.concat df22 df22ab UtahAxis.Row ≠
      OperationsF64String.concat df22 df22ab UtahAxis.Row
    ∧ (Operations.concat df22 df22ab UtahAxis.Row).left.data ≠
      (OperationsF64String.concat df22 df22ab UtahAxis.Row).left.data
    ∧ (Operations.concat df22ab df22 UtahAxis.Column).other ≠
      (OperationsF64String.concat df22ab df22 UtahAxis.Column).other := by
  decide

/-- C4 as amended: concat wraps two iterators of the same axis kind and
interleaves them end-to-end, but the generic default impl selects the
opposite-axis iterators (Column iterators for the Row argument and vice
versa) and always carries the first operand's column labels, while the
f64/String impl selects the same-axis iterators and carries the first
operand's columns for Row and index for Column; the two impls therefore
select different iterators for every axis argument and different carried
labels for the Column argument. -/
theorem concat_iterator_selection {α σ : Type} (a b : DataFrame α σ) :
    Operations.concat a b UtahAxis.Row =
      ⟨Constructor.df_iter a UtahAxis.Column, Constructor.df_iter b UtahAxis.Column,
        a.columns, UtahAxis.Column⟩
    ∧ Operations.concat a b UtahAxis.Column =
      ⟨Constructor.df_iter a UtahAxis.Row, Constructor.df_iter b UtahAxis.Row,
        a.columns, UtahAxis.Row⟩
    ∧ OperationsF64String.concat a b UtahAxis.Row =
      ⟨Constructor.df_iter a UtahAxis.Row, Constructor.df_iter b UtahAxis.Row,
        a.columns, UtahAxis.Row⟩
    ∧ OperationsF64String.concat a b UtahAxis.Column =
      ⟨Constructor.df_iter a UtahAxis.Column, Constructor.df_iter b UtahAxis.Column,
        a.index, UtahAxis.Column⟩
    ∧ (∀ ax, (Operations.concat a b ax).left.axis = (Operations.concat a b ax).right.axis)
    ∧ (∀ ax, (OperationsF64String.concat a b ax).left.axis =
        (OperationsF64String.concat a b ax).right.axis)
    ∧ (∀ ax, (Operations.concat a b ax).run =
        (Operations.concat a b ax).left.drive.1 ++
          (Operations.concat a b ax).right.drive.1) := by
  refine ⟨rfl, rfl, rfl, rfl, ?_, ?_, ?_⟩
  · intro ax
    cases ax <;> rfl
  · intro ax
    cases ax <;> rfl
  · intro ax
    rfl

end Utah
